import Mathlib

/-!
Shallow embedding of the TouchSlider Arduino library (TouchSlider.h /
TouchSlider.cpp, V1.0.2) and proofs about its slide-detection state
machine, value clamping, lifecycle and notification behaviour.

Machine integers: the C++ stores `minValue`, `maxValue`, `value`,
`increment` as `int32_t` and computes the updated value in an `int64_t`
intermediate.  We model all of these as `Int` together with explicit
wrap functions `int32Wrap` / `int64Wrap` applied exactly where the C++
narrows or computes at a given width, and a `fits32` predicate for the
range every `int32_t` field inhabits by its type.

External collaborators: the per-sensor TouchSensor capability (a
separate library) is modelled environmentally: `sensor[s].begin()`
outcomes become a `startOk : Nat → Bool` oracle passed to `begin`, and
`sensor[sensorPrev].beingTouched()` becomes the `physPrev : Bool`
input of an edge event.  A stopped sensor delivers no touched/released
callbacks, so at the system level (`step`) edge events are only
delivered while the slider is in service.
-/

namespace TouchSlider

/-- MAX_SENSORS from TouchSlider.h: the maximum number of sensors. -/
def MAX_SENSORS : Nat := 6

/-- MAX_MAX_32 from TouchSlider.h: the biggest 32-bit signed integer. -/
def MAX_MAX_32 : Int := 0x7FFFFFFF

/-- MIN_MIN_32 from TouchSlider.h: the smallest 32-bit signed integer. -/
def MIN_MIN_32 : Int := -0x80000000

/-- Wrap an integer into the value an `int64_t` would hold. -/
def int64Wrap (x : Int) : Int := (x + 2 ^ 63) % 2 ^ 64 - 2 ^ 63

/-- Wrap an integer into the value an `int32_t` would hold (the
conversion applied whenever the C++ stores the 64-bit intermediate back
into the 32-bit `value` field or passes it as an `int32_t` argument). -/
def int32Wrap (x : Int) : Int := (x + 2 ^ 31) % 2 ^ 32 - 2 ^ 31

/-- The range of values an `int32_t` field can hold. -/
def fits32 (x : Int) : Prop := -(2 ^ 31) ≤ x ∧ x < 2 ^ 31

instance (x : Int) : Decidable (fits32 x) :=
  inferInstanceAs (Decidable (-(2 ^ 31) ≤ x ∧ x < 2 ^ 31))

/-- The member state of a `TouchSlider` object (TouchSlider.h, private
section).  `changeHandler : Bool` records whether a non-null handler
function pointer is registered; `clientData` is the opaque client
token; `sensorTouched` and `sensorPin` model the fixed-size member
arrays as functions from index. -/
structure TSState where
  changeHandler : Bool
  clientData : Int
  minValue : Int
  maxValue : Int
  value : Int
  increment : Int
  nSensors : Nat
  sensorTouched : Nat → Bool
  sensorPin : Nat → Nat
  inService : Bool

/-- A call made to a registered change handler: the new slider value
(passed as `int32_t`) and the client token registered alongside it. -/
structure Notification where
  sliderValue : Int
  client : Int
deriving DecidableEq

/-- TouchSlider::TouchSlider(uint8_t p[], uint8_t pCount).  `junk`
holds the indeterminate pre-construction contents of the members that
C++ leaves uninitialized; the members with in-class initializers
(`changeHandler = nullptr`, `sensorTouched = { false }`,
`inService = false`) are reset before the constructor body runs.
An out-of-range `pCount` sets `nSensors = 0` and returns; otherwise
`sensorPin[s] = p[s]` for `s < pCount` (the TouchSensor placement-new
instantiations are external). -/
def construct (junk : TSState) (p : Nat → Nat) (pCount : Nat) : TSState :=
  let st0 : TSState :=
    { junk with changeHandler := false, sensorTouched := fun _ => false,
                inService := false }
  if pCount < 2 ∨ MAX_SENSORS < pCount then
    { st0 with nSensors := 0 }
  else
    { st0 with nSensors := pCount,
               sensorPin := fun s => if s < pCount then p s else junk.sensorPin s }

/-- Index of the first sensor whose `sensor[s].begin()` fails in the
loop of TouchSlider::begin, given the environmental start outcomes. -/
def firstFail (startOk : Nat → Bool) (n : Nat) : Option Nat :=
  (List.range n).find? (fun s => !startOk s)

/-- TouchSlider::begin(int32_t minV, int32_t maxV, int32_t curV,
int32_t inc).  Returns the new state, the returned `bool`, the list of
sensors whose `begin()` succeeded during this call, and the list of
sensors on which `end()` was called during the rollback.  With fewer
than two sensors it returns `false` at once; otherwise it overwrites
the configuration fields first, then starts the sensors in index
order: on the first failure at `s` it calls `end()` on sensors
`0 .. s` inclusive and returns `false`; if all start, it wires the
touched/released thunks, sets `inService`, and returns `true`. -/
def TSState.begin (st : TSState) (startOk : Nat → Bool)
    (minV maxV curV inc : Int) : TSState × Bool × List Nat × List Nat :=
  if st.nSensors < 2 then (st, false, [], [])
  else
    let st1 := { st with minValue := minV, maxValue := maxV,
                         value := curV, increment := inc }
    match firstFail startOk st.nSensors with
    | some s => (st1, false, List.range s, List.range (s + 1))
    | none => ({ st1 with inService := true }, true, List.range st.nSensors, [])

/-- TouchSlider::begin(): the default overload, equivalent to
`begin(MIN_MIN_32, MAX_MAX_32)` with default `curV = 0`, `inc = 1`. -/
def TSState.beginDefault (st : TSState) (startOk : Nat → Bool) :
    TSState × Bool × List Nat × List Nat :=
  st.begin startOk MIN_MIN_32 MAX_MAX_32 0 1

/-- TouchSlider::end().  A no-op unless in service with a valid sensor
count; otherwise stops every sensor (external calls) and clears
`inService`.  Named `endService` because `end` is a Lean keyword. -/
def TSState.endService (st : TSState) : TSState :=
  if ¬st.inService ∨ st.nSensors < 2 then st
  else { st with inService := false }

/-- TouchSlider::~TouchSlider().  Returns at once when `nSensors < 2`;
otherwise runs `end()` and destroys the sensor instances (external). -/
def TSState.destruct (st : TSState) : TSState :=
  if st.nSensors < 2 then st else st.endService

/-- TouchSlider::setChangeHandler(tsl_handler_t handler, void* client). -/
def TSState.setChangeHandler (st : TSState) (handler : Bool) (client : Int) :
    TSState :=
  { st with changeHandler := handler, clientData := client }

/-- TouchSlider::getValue(). -/
def TSState.getValue (st : TSState) : Int := st.value

/-- The pin-lookup loop at the top of onTouched/onReleased: the first
`sNo < nSensors` with `pin == sensorPin[sNo]`, if any.  When no sensor
matches, the C++ leaves `sensorS = NUM_DIGITAL_PINS` and then indexes
the member arrays out of bounds, so we return `none` for that case. -/
def TSState.findSensorIdx (st : TSState) (pin : Nat) : Option Nat :=
  (List.range st.nSensors).find? (fun sNo => st.sensorPin sNo == pin)

/-- The clamp expression of TouchSlider.cpp lines 142/177:
`newValue > maxValue ? maxValue : newValue < minValue ? minValue :
newValue`. -/
def clampTS (minValue maxValue v : Int) : Int :=
  if v > maxValue then maxValue else if v < minValue then minValue else v

/-- The clamped 64-bit sum of lines 141-142/176-177: the `int64_t`
intermediate `(int64_t)value + inc`, clamped into
`[minValue, maxValue]`. -/
def clampedSum (minValue maxValue value inc : Int) : Int :=
  clampTS minValue maxValue (int64Wrap (value + inc))

/-- The complete value-update arithmetic of the slide path: the clamped
64-bit sum as it lands back in the 32-bit `value` member. -/
def applyDelta (minValue maxValue value inc : Int) : Int :=
  int32Wrap (clampedSum minValue maxValue value inc)

/-- Lines 136-147 of onTouched, textually repeated as lines 171-182 of
onReleased: given the state after the snapshot update and the already
computed `inc`, return unchanged when `inc == 0` (no slide); otherwise
compute the clamped new value, call the change handler when the value
actually changes and a handler is registered, and store the value. -/
def slideUpdate (st1 : TSState) (inc : Int) : TSState × Option Notification :=
  if inc = 0 then (st1, none)
  else
    let newValue := clampedSum st1.minValue st1.maxValue st1.value inc
    let notif := if newValue ≠ st1.value ∧ st1.changeHandler = true then
        some ⟨int32Wrap newValue, st1.clientData⟩ else none
    ({ st1 with value := int32Wrap newValue }, notif)

/-- TouchSlider::onTouched(uint8_t pin).  `physPrev` is the
environmental reading `sensor[sensorPrev].beingTouched()`.  Returns
the updated state and the notification made, or `none` when the pin is
not among the sensor pins (undefined behaviour in the C++). -/
def TSState.onTouched (st : TSState) (physPrev : Bool) (pin : Nat) :
    Option (TSState × Option Notification) :=
  match st.findSensorIdx pin with
  | none => none
  | some sensorS =>
    let sensorPrev := if sensorS = 0 then st.nSensors - 1 else sensorS - 1
    let nowTouchedPrev := physPrev
    let wasTouchedPrev := st.sensorTouched sensorPrev
    let touched1 := fun i => if i = sensorS then true else st.sensorTouched i
    let touched2 := fun i => if i = sensorPrev then nowTouchedPrev else touched1 i
    let st1 := { st with sensorTouched := touched2 }
    let inc : Int := if wasTouchedPrev && nowTouchedPrev then st1.increment else 0
    some (slideUpdate st1 inc)

/-- TouchSlider::onReleased(uint8_t pin).  Identical to `onTouched`
except that the transitioning sensor is recorded not-touched and the
matched slide moves the value by `-increment`. -/
def TSState.onReleased (st : TSState) (physPrev : Bool) (pin : Nat) :
    Option (TSState × Option Notification) :=
  match st.findSensorIdx pin with
  | none => none
  | some sensorS =>
    let sensorPrev := if sensorS = 0 then st.nSensors - 1 else sensorS - 1
    let nowTouchedPrev := physPrev
    let wasTouchedPrev := st.sensorTouched sensorPrev
    let touched1 := fun i => if i = sensorS then false else st.sensorTouched i
    let touched2 := fun i => if i = sensorPrev then nowTouchedPrev else touched1 i
    let st1 := { st with sensorTouched := touched2 }
    let inc : Int := if wasTouchedPrev && nowTouchedPrev then -st1.increment else 0
    some (slideUpdate st1 inc)

/-- An operation applied to a slider instance from outside: a `begin`
call with its environmental start outcomes, an `end` call, a handler
registration, or an edge event reported by a sensor. -/
inductive Op where
  | beginOp (startOk : Nat → Bool) (minV maxV curV inc : Int)
  | endOp
  | setHandlerOp (handler : Bool) (client : Int)
  | touchEv (physPrev : Bool) (pin : Nat)
  | releaseEv (physPrev : Bool) (pin : Nat)

/-- Whether an operation is an evaluation step (an edge event). -/
def Op.isEval : Op → Bool
  | .touchEv _ _ => true
  | .releaseEv _ _ => true
  | _ => false

/-- Whether an operation is a `begin` call. -/
def Op.isBegin : Op → Bool
  | .beginOp _ _ _ _ _ => true
  | _ => false

/-- System-level step: applies one operation and collects the change
notifications it fires.  Edge events are only delivered while the
slider is in service: out of service every sensor has been stopped
(`sensor[s].end()`), or was never started, so the TouchSensor layer
makes no touched/released callbacks.  An edge event whose pin is not
among the slider's pins cannot arise from the slider's own sensors and
is ignored. -/
def step (st : TSState) (op : Op) : TSState × List Notification :=
  match op with
  | .beginOp f a b c d => ((st.begin f a b c d).1, [])
  | .endOp => (st.endService, [])
  | .setHandlerOp h c => (st.setChangeHandler h c, [])
  | .touchEv phys pin =>
      if st.inService then
        match st.onTouched phys pin with
        | some (st', n) => (st', n.toList)
        | none => (st, [])
      else (st, [])
  | .releaseEv phys pin =>
      if st.inService then
        match st.onReleased phys pin with
        | some (st', n) => (st', n.toList)
        | none => (st, [])
      else (st, [])

/-- Run a list of operations from a state, collecting all
notifications fired along the way. -/
def runTrace (st : TSState) : List Op → TSState × List Notification
  | [] => (st, [])
  | op :: ops =>
      let r1 := step st op
      let r2 := runTrace r1.1 ops
      (r2.1, r1.2 ++ r2.2)

/-- A concrete in-service four-sensor slider (pins 0,1,2,3, range
[-100, 100], value 0, increment 1, a registered handler with client
token 7, nothing touched) used to instantiate theorems. -/
def exBase : TSState :=
  { changeHandler := true, clientData := 7, minValue := -100, maxValue := 100,
    value := 0, increment := 1, nSensors := 4,
    sensorTouched := fun _ => false, sensorPin := fun s => s, inService := true }

/-- `exBase` with sensor 0 recorded as touched in the snapshot. -/
def exQuick : TSState := { exBase with sensorTouched := fun i => i == 0 }

/-- `exQuick` taken out of service (as after an `end()` call), with
the stale snapshot bit for sensor 0 still set. -/
def exStale : TSState := { exQuick with inService := false }

/-- A state whose every field holds arbitrary junk, standing for the
indeterminate contents of an object before construction. -/
def exJunk : TSState :=
  { changeHandler := true, clientData := 3, minValue := 5, maxValue := -8,
    value := 17, increment := 0, nSensors := 9,
    sensorTouched := fun i => i == 2, sensorPin := fun s => s + 10,
    inService := true }

/-!  Arithmetic helper lemmas about the wrap and clamp functions. -/

theorem int32Wrap_eq_self {x : Int} (h : fits32 x) : int32Wrap x = x := by
  have h' : -(2 ^ 31) ≤ x ∧ x < 2 ^ 31 := h
  unfold int32Wrap
  omega

theorem int64Wrap_eq_self {x : Int} (h1 : -(2 ^ 63) ≤ x) (h2 : x < 2 ^ 63) :
    int64Wrap x = x := by
  unfold int64Wrap
  omega

theorem clampTS_fits {mn mx v : Int} (hmn : fits32 mn) (hmx : fits32 mx) :
    fits32 (clampTS mn mx v) := by
  have h1 : -(2 ^ 31) ≤ mn ∧ mn < 2 ^ 31 := hmn
  have h2 : -(2 ^ 31) ≤ mx ∧ mx < 2 ^ 31 := hmx
  show fits32 (if v > mx then mx else if v < mn then mn else v)
  split
  · exact hmx
  · split
    · exact hmn
    · show -(2 ^ 31) ≤ v ∧ v < 2 ^ 31
      omega

theorem clampTS_mem {mn mx v : Int} (h : mn ≤ mx) :
    mn ≤ clampTS mn mx v ∧ clampTS mn mx v ≤ mx := by
  unfold clampTS
  split
  · omega
  · split <;> omega

theorem clampedSum_exact {mn mx v i : Int} (hv : fits32 v)
    (hlo : -(2 ^ 31) ≤ i) (hhi : i ≤ 2 ^ 31) :
    clampedSum mn mx v i = clampTS mn mx (v + i) := by
  have h' : -(2 ^ 31) ≤ v ∧ v < 2 ^ 31 := hv
  unfold clampedSum
  rw [int64Wrap_eq_self (by omega) (by omega)]

/-- C1 counterexample: on `exQuick` (in service, predecessor sensor 0
recorded touched, increment 1, value 0), an edge event in which sensor
1 goes not-touched → touched while its ring-predecessor 0
simultaneously goes touched → not-touched (`physPrev = false`) leaves
the value at 0 and fires nothing, instead of changing it by
`+fastFactor * increment = +2` (default `fastFactor = 2`) as the claim
requires. -/
theorem C1_counterexample :
    exQuick.inService = true ∧
    exQuick.sensorTouched 0 = true ∧ exQuick.sensorTouched 1 = false ∧
    exQuick.increment = 1 ∧ exQuick.value = 0 ∧
    ((exQuick.onTouched false 1).map fun r => (r.1.value, r.2)) =
      some (0, none) ∧
    (0 : Int) ≠ 0 + 2 * 1 := by
  refine ⟨rfl, by decide, by decide, rfl, rfl, by decide, by decide⟩

/-- C1 (amended): the code implements no quick-slide rule.  For an
edge event on sensor `s` (looked up from its pin), if the
ring-predecessor `p` simultaneously transitions in the opposite sense
— for a touched edge of `s`, `p` goes touched → not-touched
(`physPrev = false` with snapshot `true`); for a released edge of `s`,
`p` goes not-touched → touched (`physPrev = true` with snapshot
`false`) — the value does not change at all and no notification
fires. -/
theorem C1_no_quick_slide (st : TSState) (pin s : Nat)
    (hfind : st.findSensorIdx pin = some s)
    (hin : st.inService = true) :
    (st.sensorTouched (if s = 0 then st.nSensors - 1 else s - 1) = true →
      ((st.onTouched false pin).map fun r => (r.1.value, r.2)) =
        some (st.value, none)) ∧
    (st.sensorTouched (if s = 0 then st.nSensors - 1 else s - 1) = false →
      ((st.onReleased true pin).map fun r => (r.1.value, r.2)) =
        some (st.value, none)) := by
  constructor
  · intro hw
    simp only [TSState.onTouched, hfind]
    simp [hw, slideUpdate]
  · intro hw
    simp only [TSState.onReleased, hfind]
    simp [hw, slideUpdate]

/-- C1 witness: the amended theorem applied to `exQuick` at pin 1. -/
theorem C1_no_quick_slide_witness :
    exQuick.findSensorIdx 1 = some 1 ∧ exQuick.inService = true ∧
    exQuick.sensorTouched 0 = true ∧
    ((exQuick.onTouched false 1).map fun r => (r.1.value, r.2)) =
      some (exQuick.value, none) :=
  ⟨by decide, by decide, by decide,
    (C1_no_quick_slide exQuick 1 1 (by decide) (by decide)).1 (by decide)⟩

/-- C2: for an edge event on sensor `s` while in service, when the
ring-predecessor was touched at the previous snapshot
(`sensorTouched p = true`) and is still touched after the edge
(`physPrev = true`), a touched edge of `s` sets the value to
`clampTS minValue maxValue (value + increment)` and a released edge
sets it to `clampTS minValue maxValue (value - increment)`; any other
transition pattern leaves the value unchanged and fires no
notification. -/
theorem C2_slow_slide (st : TSState) (physPrev : Bool) (pin s : Nat)
    (hfind : st.findSensorIdx pin = some s)
    (hin : st.inService = true)
    (hmin : fits32 st.minValue) (hmax : fits32 st.maxValue)
    (hval : fits32 st.value) (hincf : fits32 st.increment)
    (hincpos : 0 < st.increment) :
    (st.sensorTouched (if s = 0 then st.nSensors - 1 else s - 1) = true →
      physPrev = true →
      ((st.onTouched physPrev pin).map fun r => r.1.value) =
        some (clampTS st.minValue st.maxValue (st.value + st.increment))) ∧
    (st.sensorTouched (if s = 0 then st.nSensors - 1 else s - 1) = true →
      physPrev = true →
      ((st.onReleased physPrev pin).map fun r => r.1.value) =
        some (clampTS st.minValue st.maxValue (st.value - st.increment))) ∧
    (¬(st.sensorTouched (if s = 0 then st.nSensors - 1 else s - 1) = true ∧
        physPrev = true) →
      ((st.onTouched physPrev pin).map fun r => (r.1.value, r.2)) =
        some (st.value, none) ∧
      ((st.onReleased physPrev pin).map fun r => (r.1.value, r.2)) =
        some (st.value, none)) := by
  have hif : -(2 ^ 31) ≤ st.increment ∧ st.increment < 2 ^ 31 := hincf
  have hne : ¬(st.increment = 0) := by omega
  refine ⟨?_, ?_, ?_⟩
  · intro hw hp
    subst hp
    simp only [TSState.onTouched, hfind, slideUpdate]
    simp only [hw, Bool.and_self, if_true, hne, if_false]
    rw [clampedSum_exact hval (by omega) (by omega)]
    rw [int32Wrap_eq_self (clampTS_fits hmin hmax)]
    simp
  · intro hw hp
    subst hp
    simp only [TSState.onReleased, hfind, slideUpdate]
    simp only [hw, Bool.and_self, if_true]
    have hne' : ¬(-st.increment = 0) := by omega
    simp only [hne', if_false]
    rw [Int.sub_eq_add_neg]
    rw [clampedSum_exact hval (by omega) (by omega)]
    rw [int32Wrap_eq_self (clampTS_fits hmin hmax)]
    simp
  · intro hnm
    cases hb : st.sensorTouched (if s = 0 then st.nSensors - 1 else s - 1) with
    | true =>
        cases hpb : physPrev with
        | true => exact absurd ⟨hb, hpb⟩ hnm
        | false =>
            constructor
            · simp only [TSState.onTouched, hfind]
              simp [hb, slideUpdate]
            · simp only [TSState.onReleased, hfind]
              simp [hb, slideUpdate]
    | false =>
        constructor
        · simp only [TSState.onTouched, hfind]
          simp [hb, slideUpdate]
        · simp only [TSState.onReleased, hfind]
          simp [hb, slideUpdate]

/-- C2 witness: the slow-slide theorem applied to `exQuick` at pin 1
with the predecessor held, and the no-match case at pin 2. -/
theorem C2_slow_slide_witness :
    exQuick.findSensorIdx 1 = some 1 ∧ 0 < exQuick.increment ∧
    fits32 exQuick.minValue ∧
    ((exQuick.onTouched true 1).map fun r => r.1.value) =
      some (clampTS exQuick.minValue exQuick.maxValue
        (exQuick.value + exQuick.increment)) :=
  ⟨by decide, by decide, by decide,
    (C2_slow_slide exQuick true 1 1 (by decide) (by decide) (by decide)
      (by decide) (by decide) (by decide) (by decide)).1 (by decide) rfl⟩

/-!  Frame and invariant lemmas for the evaluation steps. -/

theorem applyDelta_bounds {mn mx v i : Int} (hmn : fits32 mn) (hmx : fits32 mx)
    (h : mn ≤ mx) :
    mn ≤ int32Wrap (clampedSum mn mx v i) ∧
    int32Wrap (clampedSum mn mx v i) ≤ mx := by
  unfold clampedSum
  rw [int32Wrap_eq_self (clampTS_fits hmn hmx)]
  exact clampTS_mem h

theorem slideUpdate_frame (st1 : TSState) (inc : Int) :
    (slideUpdate st1 inc).1.minValue = st1.minValue ∧
    (slideUpdate st1 inc).1.maxValue = st1.maxValue ∧
    (slideUpdate st1 inc).1.increment = st1.increment ∧
    (slideUpdate st1 inc).1.inService = st1.inService := by
  unfold slideUpdate
  split
  · exact ⟨rfl, rfl, rfl, rfl⟩
  · exact ⟨rfl, rfl, rfl, rfl⟩

theorem slideUpdate_bounds {st1 : TSState} (inc : Int)
    (hmin : fits32 st1.minValue) (hmax : fits32 st1.maxValue)
    (hle : st1.minValue ≤ st1.value) (hge : st1.value ≤ st1.maxValue) :
    st1.minValue ≤ (slideUpdate st1 inc).1.value ∧
    (slideUpdate st1 inc).1.value ≤ st1.maxValue := by
  unfold slideUpdate
  split
  · exact ⟨hle, hge⟩
  · exact applyDelta_bounds hmin hmax (le_trans hle hge)

theorem onTouched_cases {st : TSState} {phys : Bool} {pin : Nat}
    {st' : TSState} {n : Option Notification}
    (h : st.onTouched phys pin = some (st', n)) :
    ∃ st1 inc, (st', n) = slideUpdate st1 inc ∧
      st1.minValue = st.minValue ∧ st1.maxValue = st.maxValue ∧
      st1.value = st.value ∧ st1.increment = st.increment ∧
      st1.inService = st.inService ∧ st1.changeHandler = st.changeHandler ∧
      st1.clientData = st.clientData := by
  unfold TSState.onTouched at h
  split at h
  · exact absurd h (by simp)
  · exact ⟨_, _, (Option.some.inj h).symm, rfl, rfl, rfl, rfl, rfl, rfl, rfl⟩

theorem onReleased_cases {st : TSState} {phys : Bool} {pin : Nat}
    {st' : TSState} {n : Option Notification}
    (h : st.onReleased phys pin = some (st', n)) :
    ∃ st1 inc, (st', n) = slideUpdate st1 inc ∧
      st1.minValue = st.minValue ∧ st1.maxValue = st.maxValue ∧
      st1.value = st.value ∧ st1.increment = st.increment ∧
      st1.inService = st.inService ∧ st1.changeHandler = st.changeHandler ∧
      st1.clientData = st.clientData := by
  unfold TSState.onReleased at h
  split at h
  · exact absurd h (by simp)
  · exact ⟨_, _, (Option.some.inj h).symm, rfl, rfl, rfl, rfl, rfl, rfl, rfl⟩

theorem step_eval_inv {st : TSState} {op : Op} (hop : op.isEval = true)
    (hmin : fits32 st.minValue) (hmax : fits32 st.maxValue)
    (hle : st.minValue ≤ st.value) (hge : st.value ≤ st.maxValue) :
    (step st op).1.minValue = st.minValue ∧
    (step st op).1.maxValue = st.maxValue ∧
    (step st op).1.minValue ≤ (step st op).1.value ∧
    (step st op).1.value ≤ (step st op).1.maxValue := by
  cases op with
  | beginOp f a b c d => simp [Op.isEval] at hop
  | endOp => simp [Op.isEval] at hop
  | setHandlerOp h c => simp [Op.isEval] at hop
  | touchEv phys pin =>
      simp only [step]
      split
      · rcases ho : st.onTouched phys pin with _ | ⟨st', n⟩
        · exact ⟨rfl, rfl, hle, hge⟩
        · show st'.minValue = st.minValue ∧ st'.maxValue = st.maxValue ∧
            st'.minValue ≤ st'.value ∧ st'.value ≤ st'.maxValue
          obtain ⟨st1, inc, heq, m1, m2, v1, _, _, _, _⟩ := onTouched_cases ho
          have hst' : st' = (slideUpdate st1 inc).1 := congrArg Prod.fst heq
          obtain ⟨f1, f2, _, _⟩ := slideUpdate_frame st1 inc
          obtain ⟨b1, b2⟩ := slideUpdate_bounds inc (m1.symm ▸ hmin)
            (m2.symm ▸ hmax) (by rw [m1, v1]; exact hle) (by rw [m2, v1]; exact hge)
          refine ⟨?_, ?_, ?_, ?_⟩
          · rw [hst', f1, m1]
          · rw [hst', f2, m2]
          · rw [hst', f1]; exact b1
          · rw [hst', f2]; exact b2
      · exact ⟨rfl, rfl, hle, hge⟩
  | releaseEv phys pin =>
      simp only [step]
      split
      · rcases ho : st.onReleased phys pin with _ | ⟨st', n⟩
        · exact ⟨rfl, rfl, hle, hge⟩
        · show st'.minValue = st.minValue ∧ st'.maxValue = st.maxValue ∧
            st'.minValue ≤ st'.value ∧ st'.value ≤ st'.maxValue
          obtain ⟨st1, inc, heq, m1, m2, v1, _, _, _, _⟩ := onReleased_cases ho
          have hst' : st' = (slideUpdate st1 inc).1 := congrArg Prod.fst heq
          obtain ⟨f1, f2, _, _⟩ := slideUpdate_frame st1 inc
          obtain ⟨b1, b2⟩ := slideUpdate_bounds inc (m1.symm ▸ hmin)
            (m2.symm ▸ hmax) (by rw [m1, v1]; exact hle) (by rw [m2, v1]; exact hge)
          refine ⟨?_, ?_, ?_, ?_⟩
          · rw [hst', f1, m1]
          · rw [hst', f2, m2]
          · rw [hst', f1]; exact b1
          · rw [hst', f2]; exact b2
      · exact ⟨rfl, rfl, hle, hge⟩

theorem runTrace_eval_inv {st : TSState} {ops : List Op}
    (hops : ∀ op ∈ ops, op.isEval = true)
    (hmin : fits32 st.minValue) (hmax : fits32 st.maxValue)
    (hle : st.minValue ≤ st.value) (hge : st.value ≤ st.maxValue) :
    (runTrace st ops).1.minValue = st.minValue ∧
    (runTrace st ops).1.maxValue = st.maxValue ∧
    (runTrace st ops).1.minValue ≤ (runTrace st ops).1.value ∧
    (runTrace st ops).1.value ≤ (runTrace st ops).1.maxValue := by
  induction ops generalizing st with
  | nil => exact ⟨rfl, rfl, hle, hge⟩
  | cons op ops ih =>
      have hop := hops op (List.mem_cons_self _ _)
      have hrest : ∀ o ∈ ops, o.isEval = true :=
        fun o ho => hops o (List.mem_cons_of_mem _ ho)
      obtain ⟨e1, e2, e3, e4⟩ := step_eval_inv hop hmin hmax hle hge
      have hmin2 : fits32 (step st op).1.minValue := by rw [e1]; exact hmin
      have hmax2 : fits32 (step st op).1.maxValue := by rw [e2]; exact hmax
      have hr := ih hrest hmin2 hmax2 e3 e4
      simp only [runTrace]
      exact ⟨hr.1.trans e1, hr.2.1.trans e2, hr.2.2.1, hr.2.2.2⟩

theorem runTrace_eval_bounds {st : TSState} {ops : List Op} {a b : Int}
    (hops : ∀ op ∈ ops, op.isEval = true)
    (ea : st.minValue = a) (eb : st.maxValue = b)
    (hmin : fits32 a) (hmax : fits32 b)
    (hle : a ≤ st.value) (hge : st.value ≤ b) :
    a ≤ (runTrace st ops).1.value ∧ (runTrace st ops).1.value ≤ b := by
  subst ea
  subst eb
  have hr := runTrace_eval_inv hops hmin hmax hle hge
  exact ⟨hr.1 ▸ hr.2.2.1, hr.2.1 ▸ hr.2.2.2⟩

theorem begin_success_state (st : TSState) (f : Nat → Bool) (a b c d : Int)
    (hn : ¬st.nSensors < 2) (hff : firstFail f st.nSensors = none) :
    st.begin f a b c d =
      ({ st with minValue := a, maxValue := b, value := c, increment := d,
                 inService := true }, true, List.range st.nSensors, []) := by
  unfold TSState.begin
  rw [if_neg hn, hff]

theorem begin_success_inv {st : TSState} {f : Nat → Bool} {a b c d : Int}
    (hok : (st.begin f a b c d).2.1 = true) :
    ¬st.nSensors < 2 ∧ firstFail f st.nSensors = none := by
  unfold TSState.begin at hok
  split at hok
  · simp at hok
  · rename_i hn
    refine ⟨hn, ?_⟩
    rcases hff : firstFail f st.nSensors with _ | s
    · rfl
    · rw [hff] at hok
      simp at hok

/-- C3: from any state, a successful `begin` with a valid
configuration (`minV < maxV`, `0 < inc`, `minV ≤ curV ≤ maxV`, all in
`int32_t` range) followed by any sequence of evaluation steps leaves
`getValue()` within `[minV, maxV]`. -/
theorem C3_value_in_bounds (st0 : TSState) (f : Nat → Bool)
    (minV maxV curV inc : Int) (events : List Op)
    (hmin : fits32 minV) (hmax : fits32 maxV)
    (hlt : minV < maxV) (hincpos : 0 < inc)
    (hlo : minV ≤ curV) (hhi : curV ≤ maxV)
    (hok : (st0.begin f minV maxV curV inc).2.1 = true)
    (hev : ∀ op ∈ events, op.isEval = true) :
    minV ≤ (runTrace (st0.begin f minV maxV curV inc).1 events).1.getValue ∧
    (runTrace (st0.begin f minV maxV curV inc).1 events).1.getValue ≤ maxV := by
  obtain ⟨hn, hff⟩ := begin_success_inv hok
  rw [begin_success_state st0 f minV maxV curV inc hn hff]
  simp only [TSState.getValue]
  exact runTrace_eval_bounds hev rfl rfl hmin hmax hlo hhi

/-- C3 witness: the bounds theorem applied to `exBase` with range
[-100, 100], initial value 0, increment 1, all sensors starting, and
one slow-slide touched event. -/
theorem C3_witness :
    (0 : Int) < 1 ∧ (-100 : Int) < 100 ∧
    (exBase.begin (fun _ => true) (-100) 100 0 1).2.1 = true ∧
    ((-100 : Int) ≤ (runTrace (exBase.begin (fun _ => true) (-100) 100 0 1).1
        [Op.touchEv true 1]).1.getValue ∧
      (runTrace (exBase.begin (fun _ => true) (-100) 100 0 1).1
        [Op.touchEv true 1]).1.getValue ≤ 100) :=
  ⟨by decide, by decide, by decide,
    C3_value_in_bounds exBase (fun _ => true) (-100) 100 0 1 [Op.touchEv true 1]
      (by decide) (by decide) (by decide) (by decide) (by decide) (by decide)
      (by decide) (by decide)⟩

theorem slideUpdate_spec (st1 : TSState) (inc : Int) :
    (inc = 0 ∧ slideUpdate st1 inc = (st1, none)) ∨
    (inc ≠ 0 ∧
      (slideUpdate st1 inc).1 =
        { st1 with value :=
            int32Wrap (clampedSum st1.minValue st1.maxValue st1.value inc) } ∧
      (slideUpdate st1 inc).2 =
        (if clampedSum st1.minValue st1.maxValue st1.value inc ≠ st1.value ∧
            st1.changeHandler = true then
          some ⟨int32Wrap (clampedSum st1.minValue st1.maxValue st1.value inc),
                st1.clientData⟩
        else none)) := by
  unfold slideUpdate
  split
  · rename_i h
    exact Or.inl ⟨h, rfl⟩
  · rename_i h
    exact Or.inr ⟨h, rfl, rfl⟩

theorem slideUpdate_notif {st1 : TSState} {inc : Int} {nf : Notification}
    (h : (slideUpdate st1 inc).2 = some nf)
    (hmin : fits32 st1.minValue) (hmax : fits32 st1.maxValue) :
    st1.changeHandler = true ∧
    nf.sliderValue = (slideUpdate st1 inc).1.value ∧
    nf.client = st1.clientData ∧
    (slideUpdate st1 inc).1.value ≠ st1.value := by
  rcases slideUpdate_spec st1 inc with ⟨hinc, heq⟩ | ⟨hinc, h1, h2⟩
  · rw [heq] at h
    exact absurd h (by simp)
  · rw [h2] at h
    split at h
    · rename_i hcond
      injection h with h1'
      subst h1'
      have hf : fits32 (clampedSum st1.minValue st1.maxValue st1.value inc) :=
        clampTS_fits hmin hmax
      refine ⟨hcond.2, ?_, rfl, ?_⟩
      · rw [h1]
      · rw [h1]
        show int32Wrap (clampedSum st1.minValue st1.maxValue st1.value inc) ≠
          st1.value
        rw [int32Wrap_eq_self hf]
        exact hcond.1
    · exact absurd h (by simp)

theorem slideUpdate_no_notif (st1 : TSState) (inc : Int)
    (hch : st1.changeHandler = false) :
    (slideUpdate st1 inc).2 = none := by
  unfold slideUpdate
  split
  · rfl
  · simp [hch]

theorem slideUpdate_value_only_cfg (stA stB : TSState) (inc : Int)
    (hm : stA.minValue = stB.minValue) (hx : stA.maxValue = stB.maxValue)
    (hv : stA.value = stB.value) :
    (slideUpdate stA inc).1.value = (slideUpdate stB inc).1.value := by
  unfold slideUpdate
  split
  · exact hv
  · simp only []
    rw [hm, hx, hv]

theorem option_toList_len {α : Type} (o : Option α) : o.toList.length ≤ 1 := by
  cases o <;> simp

theorem onTouched_eq (st : TSState) (phys : Bool) (pin : Nat) :
    st.onTouched phys pin =
      (st.findSensorIdx pin).map (fun s =>
        slideUpdate
          { st with sensorTouched := fun i =>
              if i = (if s = 0 then st.nSensors - 1 else s - 1) then phys
              else if i = s then true else st.sensorTouched i }
          (if st.sensorTouched (if s = 0 then st.nSensors - 1 else s - 1) && phys
            then st.increment else 0)) := by
  unfold TSState.onTouched
  rcases st.findSensorIdx pin with _ | s
  · rfl
  · rfl

theorem onReleased_eq (st : TSState) (phys : Bool) (pin : Nat) :
    st.onReleased phys pin =
      (st.findSensorIdx pin).map (fun s =>
        slideUpdate
          { st with sensorTouched := fun i =>
              if i = (if s = 0 then st.nSensors - 1 else s - 1) then phys
              else if i = s then false else st.sensorTouched i }
          (if st.sensorTouched (if s = 0 then st.nSensors - 1 else s - 1) && phys
            then -st.increment else 0)) := by
  unfold TSState.onReleased
  rcases st.findSensorIdx pin with _ | s
  · rfl
  · rfl

/-- C4: per evaluation step, at most one change-handler call is made;
every call made reports the value stored by the step, carries the
registered client token, and happens only when the registered handler
is non-null and the stored (clamped) value differs from the value held
before the step; with a null handler no call is made but the stored
value is identical; `setChangeHandler` replaces the handler and token
without touching the value. -/
theorem C4_notifier (st : TSState) (op : Op)
    (hop : op.isEval = true)
    (hmin : fits32 st.minValue) (hmax : fits32 st.maxValue) :
    (step st op).2.length ≤ 1 ∧
    (∀ nf ∈ (step st op).2,
      st.changeHandler = true ∧ nf.sliderValue = (step st op).1.value ∧
      nf.client = st.clientData ∧ (step st op).1.value ≠ st.value) ∧
    (step { st with changeHandler := false } op).1.value =
      (step st op).1.value ∧
    (step { st with changeHandler := false } op).2 = [] ∧
    (∀ (h : Bool) (c : Int),
      (st.setChangeHandler h c).changeHandler = h ∧
      (st.setChangeHandler h c).clientData = c ∧
      (st.setChangeHandler h c).value = st.value) := by
  cases op with
  | beginOp f a b c d => simp [Op.isEval] at hop
  | endOp => simp [Op.isEval] at hop
  | setHandlerOp h c => simp [Op.isEval] at hop
  | touchEv phys pin =>
      simp only [step]
      have hsvc : TSState.inService { st with changeHandler := false } =
          st.inService := rfl
      have hfF : TSState.findSensorIdx { st with changeHandler := false } pin =
          st.findSensorIdx pin := rfl
      rw [hsvc, onTouched_eq st,
        onTouched_eq { st with changeHandler := false }, hfF]
      split
      · rcases hf : st.findSensorIdx pin with _ | s
        · exact ⟨by simp, by simp, rfl, rfl, fun h c => ⟨rfl, rfl, rfl⟩⟩
        · simp only [Option.map_some']
          refine ⟨option_toList_len _, ?_, ?_, ?_, fun h c => ⟨rfl, rfl, rfl⟩⟩
          · intro nf hnf
            have hsome : (slideUpdate
                { st with sensorTouched := fun i =>
                    if i = (if s = 0 then st.nSensors - 1 else s - 1) then phys
                    else if i = s then true else st.sensorTouched i }
                (if st.sensorTouched
                    (if s = 0 then st.nSensors - 1 else s - 1) && phys
                  then st.increment else 0)).2 = some nf := by
              rcases h2 : (slideUpdate _ _).2 with _ | x
              · rw [h2] at hnf
                simp at hnf
              · rw [h2] at hnf
                simp at hnf
                rw [hnf]
            obtain ⟨c1, c2, c3, c4⟩ := slideUpdate_notif hsome hmin hmax
            exact ⟨c1, c2, c3, c4⟩
          · exact slideUpdate_value_only_cfg _ _ _ rfl rfl rfl
          · rw [slideUpdate_no_notif _ _ rfl]
            rfl
      · exact ⟨by simp, by simp, rfl, rfl, fun h c => ⟨rfl, rfl, rfl⟩⟩
  | releaseEv phys pin =>
      simp only [step]
      have hsvc : TSState.inService { st with changeHandler := false } =
          st.inService := rfl
      have hfF : TSState.findSensorIdx { st with changeHandler := false } pin =
          st.findSensorIdx pin := rfl
      rw [hsvc, onReleased_eq st,
        onReleased_eq { st with changeHandler := false }, hfF]
      split
      · rcases hf : st.findSensorIdx pin with _ | s
        · exact ⟨by simp, by simp, rfl, rfl, fun h c => ⟨rfl, rfl, rfl⟩⟩
        · simp only [Option.map_some']
          refine ⟨option_toList_len _, ?_, ?_, ?_, fun h c => ⟨rfl, rfl, rfl⟩⟩
          · intro nf hnf
            have hsome : (slideUpdate
                { st with sensorTouched := fun i =>
                    if i = (if s = 0 then st.nSensors - 1 else s - 1) then phys
                    else if i = s then false else st.sensorTouched i }
                (if st.sensorTouched
                    (if s = 0 then st.nSensors - 1 else s - 1) && phys
                  then -st.increment else 0)).2 = some nf := by
              rcases h2 : (slideUpdate _ _).2 with _ | x
              · rw [h2] at hnf
                simp at hnf
              · rw [h2] at hnf
                simp at hnf
                rw [hnf]
            obtain ⟨c1, c2, c3, c4⟩ := slideUpdate_notif hsome hmin hmax
            exact ⟨c1, c2, c3, c4⟩
          · exact slideUpdate_value_only_cfg _ _ _ rfl rfl rfl
          · rw [slideUpdate_no_notif _ _ rfl]
            rfl
      · exact ⟨by simp, by simp, rfl, rfl, fun h c => ⟨rfl, rfl, rfl⟩⟩

/-- C4 witness: the notifier contract applied to `exQuick` with a
slow-slide touched event, which fires exactly one notification. -/
theorem C4_notifier_witness :
    (Op.touchEv true 1).isEval = true ∧ fits32 exQuick.minValue ∧
    fits32 exQuick.maxValue ∧
    ((step exQuick (Op.touchEv true 1)).2.length ≤ 1 ∧
      (∀ nf ∈ (step exQuick (Op.touchEv true 1)).2,
        exQuick.changeHandler = true ∧
        nf.sliderValue = (step exQuick (Op.touchEv true 1)).1.value ∧
        nf.client = exQuick.clientData ∧
        (step exQuick (Op.touchEv true 1)).1.value ≠ exQuick.value) ∧
      (step { exQuick with changeHandler := false }
          (Op.touchEv true 1)).1.value =
        (step exQuick (Op.touchEv true 1)).1.value ∧
      (step { exQuick with changeHandler := false }
          (Op.touchEv true 1)).2 = [] ∧
      (∀ (h : Bool) (c : Int),
        (exQuick.setChangeHandler h c).changeHandler = h ∧
        (exQuick.setChangeHandler h c).clientData = c ∧
        (exQuick.setChangeHandler h c).value = exQuick.value)) :=
  ⟨by decide, by decide, by decide,
    C4_notifier exQuick (Op.touchEv true 1) (by decide) (by decide) (by decide)⟩

/-- C5: the slide-path arithmetic computes exactly the saturating
clamp of `oldValue + magnitude`: for any `int32_t`-range bounds and
stored value, and any magnitude of absolute value at most `2^31`
(which covers both `increment` and `-increment` for any `int32_t`
increment), the 64-bit intermediate sum does not wrap, the stored
result equals the exact clamp of the unbounded sum, and it lies in
`[minValue, maxValue]` whenever `minValue ≤ maxValue`. -/
theorem C5_no_overflow (mn mx v i : Int)
    (hmn : fits32 mn) (hmx : fits32 mx) (hv : fits32 v)
    (hlo : -(2 ^ 31) ≤ i) (hhi : i ≤ 2 ^ 31) :
    int64Wrap (v + i) = v + i ∧
    clampedSum mn mx v i = clampTS mn mx (v + i) ∧
    applyDelta mn mx v i = clampTS mn mx (v + i) ∧
    (mn ≤ mx → mn ≤ applyDelta mn mx v i ∧ applyDelta mn mx v i ≤ mx) := by
  have h1 : -(2 ^ 31) ≤ v ∧ v < 2 ^ 31 := hv
  have hw : int64Wrap (v + i) = v + i := int64Wrap_eq_self (by omega) (by omega)
  have hcs : clampedSum mn mx v i = clampTS mn mx (v + i) :=
    clampedSum_exact hv hlo hhi
  have had : applyDelta mn mx v i = clampTS mn mx (v + i) := by
    unfold applyDelta
    rw [hcs, int32Wrap_eq_self (clampTS_fits hmn hmx)]
  refine ⟨hw, hcs, had, fun hle => ?_⟩
  rw [had]
  exact clampTS_mem hle

/-- C5 witness: the exact-clamp theorem applied with the stored value
at the top of the signed 32-bit range and the magnitude `2^31`, over
the full default range: the result saturates at `MAX_MAX_32` with no
wraparound. -/
theorem C5_no_overflow_witness :
    fits32 MIN_MIN_32 ∧ fits32 MAX_MAX_32 ∧ fits32 (2 ^ 31 - 1) ∧
    (int64Wrap (2 ^ 31 - 1 + 2 ^ 31) = 2 ^ 31 - 1 + 2 ^ 31 ∧
      clampedSum MIN_MIN_32 MAX_MAX_32 (2 ^ 31 - 1) (2 ^ 31) =
        clampTS MIN_MIN_32 MAX_MAX_32 (2 ^ 31 - 1 + 2 ^ 31) ∧
      applyDelta MIN_MIN_32 MAX_MAX_32 (2 ^ 31 - 1) (2 ^ 31) =
        clampTS MIN_MIN_32 MAX_MAX_32 (2 ^ 31 - 1 + 2 ^ 31) ∧
      (MIN_MIN_32 ≤ MAX_MAX_32 →
        MIN_MIN_32 ≤ applyDelta MIN_MIN_32 MAX_MAX_32 (2 ^ 31 - 1) (2 ^ 31) ∧
        applyDelta MIN_MIN_32 MAX_MAX_32 (2 ^ 31 - 1) (2 ^ 31) ≤ MAX_MAX_32)) :=
  ⟨by decide, by decide, by decide,
    C5_no_overflow MIN_MIN_32 MAX_MAX_32 (2 ^ 31 - 1) (2 ^ 31)
      (by decide) (by decide) (by decide) (by decide) (by decide)⟩

/-- C6 counterexample: from `exStale` (out of service, snapshot bit
for sensor 0 stale-set), a fully successful `begin` leaves the stale
bit set instead of resetting every sensor to not touched. -/
theorem C6_counterexample :
    exStale.sensorTouched 0 = true ∧
    (exStale.begin (fun _ => true) (-100) 100 0 1).2.1 = true ∧
    (exStale.begin (fun _ => true) (-100) 100 0 1).1.sensorTouched 0 =
      true := by
  refine ⟨by decide, by decide, by decide⟩

/-- C6 (amended): the per-sensor snapshot is reset to all-not-touched
at construction only; `begin` never modifies the snapshot, so touched
state recorded in a previous service period survives an `end` followed
by a new successful `begin`. -/
theorem C6_snapshot_reset_at_construction (junk st : TSState)
    (p : Nat → Nat) (pCount : Nat) (f : Nat → Bool) (a b c d : Int)
    (i : Nat) :
    (construct junk p pCount).sensorTouched i = false ∧
    (st.begin f a b c d).1.sensorTouched i = st.sensorTouched i := by
  constructor
  · unfold construct
    split <;> rfl
  · unfold TSState.begin
    split
    · rfl
    · rcases firstFail f st.nSensors with _ | s <;> rfl

theorem begin_invalid (st : TSState) (f : Nat → Bool) (a b c d : Int)
    (h : st.nSensors < 2) :
    st.begin f a b c d = (st, false, [], []) := by
  unfold TSState.begin
  rw [if_pos h]

theorem begin_fail_state (st : TSState) (f : Nat → Bool) (a b c d : Int)
    (s0 : Nat) (hn : ¬st.nSensors < 2)
    (hfail : firstFail f st.nSensors = some s0) :
    st.begin f a b c d =
      ({ st with minValue := a, maxValue := b, value := c, increment := d },
        false, List.range s0, List.range (s0 + 1)) := by
  unfold TSState.begin
  rw [if_neg hn, hfail]

/-- C7: when some sensor fails to start during `begin` on a valid
instance, `begin` returns false, the slider stays out of service, and
every sensor that had been started in this call (those before the
first failure) is among the sensors stopped by the rollback. -/
theorem C7_rollback (st : TSState) (f : Nat → Bool) (a b c d : Int)
    (s0 : Nat) (hn : ¬st.nSensors < 2)
    (hfail : firstFail f st.nSensors = some s0)
    (hout : st.inService = false) :
    (st.begin f a b c d).2.1 = false ∧
    (st.begin f a b c d).1.inService = false ∧
    (∀ i ∈ (st.begin f a b c d).2.2.1, i ∈ (st.begin f a b c d).2.2.2) := by
  rw [begin_fail_state st f a b c d s0 hn hfail]
  refine ⟨rfl, hout, ?_⟩
  intro i hi
  simp only [List.mem_range] at hi ⊢
  omega

/-- C7 witness: the rollback theorem applied to `exStale` with sensor
1 failing to start: sensor 0 was started and is stopped again. -/
theorem C7_rollback_witness :
    ¬exStale.nSensors < 2 ∧
    firstFail (fun s => s == 0) exStale.nSensors = some 1 ∧
    exStale.inService = false ∧
    ((exStale.begin (fun s => s == 0) (-100) 100 0 1).2.1 = false ∧
      (exStale.begin (fun s => s == 0) (-100) 100 0 1).1.inService = false ∧
      (∀ i ∈ (exStale.begin (fun s => s == 0) (-100) 100 0 1).2.2.1,
        i ∈ (exStale.begin (fun s => s == 0) (-100) 100 0 1).2.2.2)) :=
  ⟨by decide, by decide, by decide,
    C7_rollback exStale (fun s => s == 0) (-100) 100 0 1 1
      (by decide) (by decide) (by decide)⟩

/-- C10: a `begin` on a valid instance that fails because a sensor
does not start has nevertheless already overwritten `minValue`,
`maxValue`, `value`, and `increment` with its arguments, so
`getValue()` afterwards returns the new `curV`. -/
theorem C10_begin_overwrites (st : TSState) (f : Nat → Bool)
    (a b c d : Int) (s0 : Nat) (hn : ¬st.nSensors < 2)
    (hfail : firstFail f st.nSensors = some s0) :
    (st.begin f a b c d).2.1 = false ∧
    (st.begin f a b c d).1.minValue = a ∧
    (st.begin f a b c d).1.maxValue = b ∧
    (st.begin f a b c d).1.increment = d ∧
    (st.begin f a b c d).1.getValue = c := by
  rw [begin_fail_state st f a b c d s0 hn hfail]
  exact ⟨rfl, rfl, rfl, rfl, rfl⟩

/-- C10 witness: a failed `begin` on `exStale` (value 0) with
`curV = 42` leaves `getValue() = 42`. -/
theorem C10_begin_overwrites_witness :
    exStale.getValue = 0 ∧ ¬exStale.nSensors < 2 ∧
    firstFail (fun _ => false) exStale.nSensors = some 0 ∧
    ((exStale.begin (fun _ => false) (-100) 100 42 1).2.1 = false ∧
      (exStale.begin (fun _ => false) (-100) 100 42 1).1.minValue = -100 ∧
      (exStale.begin (fun _ => false) (-100) 100 42 1).1.maxValue = 100 ∧
      (exStale.begin (fun _ => false) (-100) 100 42 1).1.increment = 1 ∧
      (exStale.begin (fun _ => false) (-100) 100 42 1).1.getValue = 42) :=
  ⟨by decide, by decide, by decide,
    C10_begin_overwrites exStale (fun _ => false) (-100) 100 42 1 0
      (by decide) (by decide)⟩

theorem endService_id (st : TSState) (h : st.inService = false) :
    st.endService = st := by
  unfold TSState.endService
  rw [if_pos (Or.inl (by simp [h]))]

theorem endService_stops (st : TSState) (h1 : st.inService = true)
    (h2 : ¬st.nSensors < 2) :
    st.endService.inService = false := by
  unfold TSState.endService
  have hc : ¬(¬st.inService = true ∨ st.nSensors < 2) := by
    intro hc
    rcases hc with hc | hc
    · exact hc h1
    · exact h2 hc
  rw [if_neg hc]

theorem destruct_id (st : TSState) (h : st.nSensors < 2) :
    st.destruct = st := by
  unfold TSState.destruct
  rw [if_pos h]

theorem step_out_of_service {st : TSState} {op : Op}
    (hout : st.inService = false) (hnb : op.isBegin = false) :
    (step st op).1.value = st.value ∧ (step st op).1.inService = false ∧
    (step st op).2 = [] := by
  cases op with
  | beginOp f a b c d => simp [Op.isBegin] at hnb
  | endOp =>
      simp only [step]
      rw [endService_id st hout]
      exact ⟨rfl, hout, by trivial⟩
  | setHandlerOp h c => exact ⟨rfl, hout, by trivial⟩
  | touchEv phys pin =>
      simp only [step]
      rw [if_neg (by simp [hout])]
      exact ⟨rfl, hout, by trivial⟩
  | releaseEv phys pin =>
      simp only [step]
      rw [if_neg (by simp [hout])]
      exact ⟨rfl, hout, by trivial⟩

theorem runTrace_out_of_service (st : TSState) (ops : List Op)
    (hout : st.inService = false)
    (hnb : ∀ op ∈ ops, op.isBegin = false) :
    (runTrace st ops).1.value = st.value ∧
    (runTrace st ops).1.inService = false ∧
    (runTrace st ops).2 = [] := by
  induction ops generalizing st with
  | nil => exact ⟨rfl, hout, by trivial⟩
  | cons op ops ih =>
      have h1 := step_out_of_service hout (hnb op (List.mem_cons_self _ _))
      have h2 := ih (step st op).1 h1.2.1
        (fun o ho => hnb o (List.mem_cons_of_mem _ ho))
      simp only [runTrace]
      refine ⟨h2.1.trans h1.1, h2.2.1, ?_⟩
      rw [h1.2.2, h2.2.2]
      rfl

/-- C8 counterexample: from the in-service `exBase` (value 0), `end()`
followed by a `begin` whose sensors all fail to start: no `begin` has
succeeded, yet `getValue()` has changed from 0 to 42. -/
theorem C8_counterexample :
    exBase.inService = true ∧ exBase.getValue = 0 ∧
    exBase.endService.inService = false ∧
    (exBase.endService.begin (fun _ => false) (-100) 100 42 1).2.1 = false ∧
    (exBase.endService.begin (fun _ => false) (-100) 100 42 1).1.getValue =
      42 := by
  refine ⟨by decide, by decide, by decide, by decide, by decide⟩

/-- C8 (amended): after `end()` the slider is out of service, and from
any out-of-service state, a sequence of operations containing no
`begin` call (of any outcome) leaves the value unchanged and fires no
notification; `end()` when not in service is the identity.  (A failed
`begin` with a valid sensor count would still overwrite the stored
value, so quiescence holds only until the next `begin` call, not until
the next successful one.) -/
theorem C8_quiescent_after_end (st : TSState) (ops : List Op)
    (hout : st.inService = false)
    (hnb : ∀ op ∈ ops, op.isBegin = false) :
    (runTrace st ops).1.value = st.value ∧
    (runTrace st ops).2 = [] ∧
    (∀ st2 : TSState, st2.inService = false → st2.endService = st2) ∧
    (∀ st2 : TSState, st2.inService = true → ¬st2.nSensors < 2 →
      st2.endService.inService = false) := by
  obtain ⟨h1, _, h3⟩ := runTrace_out_of_service st ops hout hnb
  exact ⟨h1, h3, endService_id, endService_stops⟩

/-- C8 witness: the quiescence theorem applied to `exBase.endService`
with a touched event, a released event and a redundant `end`. -/
theorem C8_quiescent_after_end_witness :
    exBase.endService.inService = false ∧
    (∀ op ∈ [Op.touchEv true 1, Op.endOp, Op.releaseEv false 2],
      op.isBegin = false) ∧
    ((runTrace exBase.endService
        [Op.touchEv true 1, Op.endOp, Op.releaseEv false 2]).1.value =
      exBase.endService.value ∧
    (runTrace exBase.endService
        [Op.touchEv true 1, Op.endOp, Op.releaseEv false 2]).2 = [] ∧
    (∀ st2 : TSState, st2.inService = false → st2.endService = st2) ∧
    (∀ st2 : TSState, st2.inService = true → ¬st2.nSensors < 2 →
      st2.endService.inService = false)) :=
  ⟨by decide, by decide,
    C8_quiescent_after_end exBase.endService
      [Op.touchEv true 1, Op.endOp, Op.releaseEv false 2]
      (by decide) (by decide)⟩

theorem step_inert {st : TSState} {op : Op}
    (h0 : st.nSensors = 0) (h1 : st.inService = false) :
    (step st op).1.value = st.value ∧ (step st op).1.nSensors = 0 ∧
    (step st op).1.inService = false ∧ (step st op).2 = [] := by
  cases op with
  | beginOp f a b c d =>
      simp only [step]
      rw [begin_invalid st f a b c d (by omega)]
      exact ⟨rfl, h0, h1, by trivial⟩
  | endOp =>
      simp only [step]
      rw [endService_id st h1]
      exact ⟨rfl, h0, h1, by trivial⟩
  | setHandlerOp h c => exact ⟨rfl, h0, h1, by trivial⟩
  | touchEv phys pin =>
      simp only [step]
      rw [if_neg (by simp [h1])]
      exact ⟨rfl, h0, h1, by trivial⟩
  | releaseEv phys pin =>
      simp only [step]
      rw [if_neg (by simp [h1])]
      exact ⟨rfl, h0, h1, by trivial⟩

theorem runTrace_inert (st : TSState) (ops : List Op)
    (h0 : st.nSensors = 0) (h1 : st.inService = false) :
    (runTrace st ops).1.value = st.value ∧
    (runTrace st ops).1.nSensors = 0 ∧
    (runTrace st ops).1.inService = false ∧
    (runTrace st ops).2 = [] := by
  induction ops generalizing st with
  | nil => exact ⟨rfl, h0, h1, by trivial⟩
  | cons op ops ih =>
      have hs : (step st op).1.value = st.value ∧ (step st op).1.nSensors = 0 ∧
          (step st op).1.inService = false ∧ (step st op).2 = [] :=
        step_inert h0 h1
      have hr := ih (step st op).1 hs.2.1 hs.2.2.1
      simp only [runTrace]
      refine ⟨hr.1.trans hs.1, hr.2.1, hr.2.2.1, ?_⟩
      rw [hs.2.2.2, hr.2.2.2]
      rfl

/-- C9: constructing with a sensor count outside `[2, MAX_SENSORS]`
marks the instance inert (`nSensors = 0`): every later `begin` returns
false and changes nothing, `end()` and the destructor are identities,
and any sequence of operations leaves `getValue()` at the
uninitialized junk value with no notification ever fired and the
instance still inert. -/
theorem C9_inert (junk : TSState) (p : Nat → Nat) (pCount : Nat)
    (hbad : pCount < 2 ∨ MAX_SENSORS < pCount) (ops : List Op)
    (f : Nat → Bool) (a b c d : Int) :
    (construct junk p pCount).nSensors = 0 ∧
    ((construct junk p pCount).begin f a b c d).2.1 = false ∧
    ((construct junk p pCount).begin f a b c d).1 = construct junk p pCount ∧
    (construct junk p pCount).endService = construct junk p pCount ∧
    (construct junk p pCount).destruct = construct junk p pCount ∧
    (runTrace (construct junk p pCount) ops).1.getValue = junk.value ∧
    (runTrace (construct junk p pCount) ops).2 = [] ∧
    (runTrace (construct junk p pCount) ops).1.nSensors = 0 := by
  have h0 : (construct junk p pCount).nSensors = 0 := by
    unfold construct
    rw [if_pos hbad]
  have h1 : (construct junk p pCount).inService = false := by
    unfold construct
    split <;> rfl
  have hv : (construct junk p pCount).value = junk.value := by
    unfold construct
    split <;> rfl
  have hb := begin_invalid (construct junk p pCount) f a b c d (by omega)
  have ht := runTrace_inert (construct junk p pCount) ops h0 h1
  refine ⟨h0, ?_, ?_, endService_id _ h1, destruct_id _ (by omega), ?_, ht.2.2.2, ht.2.1⟩
  · rw [hb]
  · rw [hb]
  · show (runTrace (construct junk p pCount) ops).1.value = junk.value
    rw [ht.1, hv]

/-- C9 witness: a one-pin construction over junk contents (value 17):
begin fails, nothing changes across a begin attempt and an edge event,
and the value stays 17. -/
theorem C9_inert_witness :
    ((1 : Nat) < 2 ∨ MAX_SENSORS < 1) ∧
    ((construct exJunk (fun s => s) 1).nSensors = 0 ∧
      ((construct exJunk (fun s => s) 1).begin (fun _ => true) 0 10 5 1).2.1 =
        false ∧
      ((construct exJunk (fun s => s) 1).begin (fun _ => true) 0 10 5 1).1 =
        construct exJunk (fun s => s) 1 ∧
      (construct exJunk (fun s => s) 1).endService =
        construct exJunk (fun s => s) 1 ∧
      (construct exJunk (fun s => s) 1).destruct =
        construct exJunk (fun s => s) 1 ∧
      (runTrace (construct exJunk (fun s => s) 1)
          [Op.beginOp (fun _ => true) 0 10 5 1, Op.touchEv true 0]).1.getValue
        = exJunk.value ∧
      (runTrace (construct exJunk (fun s => s) 1)
          [Op.beginOp (fun _ => true) 0 10 5 1, Op.touchEv true 0]).2 = [] ∧
      (runTrace (construct exJunk (fun s => s) 1)
          [Op.beginOp (fun _ => true) 0 10 5 1, Op.touchEv true 0]).1.nSensors
        = 0) :=
  ⟨by decide,
    C9_inert exJunk (fun s => s) 1 (by decide)
      [Op.beginOp (fun _ => true) 0 10 5 1, Op.touchEv true 0]
      (fun _ => true) 0 10 5 1⟩

end TouchSlider
